import Mathlib

/-!
A verification development for the `lastkajen` Rust client library
(`src/lib.rs`, `src/types.rs`), a thin HTTP client for the Lastkajen
file-distribution service.

Modelling conventions (shallow embedding):
* An HTTP response (`reqwest::Response`) is a record carrying the outcomes of
  the ways the client may consume it: its status code, the result of reading
  the body as text (`.text()`), the result of JSON-decoding the body as a bare
  string (`.json::<String>()`), the result of JSON-decoding it as a list of
  package files (`.json::<Vec<DataPackageFile>>()`), and the chunk stream
  (`.chunk()` events, each a chunk or a transport failure, ending when the
  list is exhausted).
* The HTTP transport (`reqwest::Client`) is external: each operation takes a
  `send : Request → Except ReqwestError Response` parameter and returns the
  list of requests it issued alongside its result, mirroring the requests the
  Rust code hands to the client handle.
* The caller-supplied sink (`&mut dyn Write`) is explicit state: a `Sink`
  records the bytes written so far and an optional scripted failure for its
  k-th `write_all` call.  Operations thread the sink through and return its
  final state, matching in-place mutation in Rust.
* Bytes are `Nat`, status codes are `Nat`; machine width never matters here.
-/

/-- A transport-level failure from the HTTP layer (`reqwest::Error`), opaque
to this library. -/
structure ReqwestError where
  msg : String
  deriving Repr, DecidableEq

/-- A sink I/O failure (`std::io::Error`), opaque to this library. -/
structure IoError where
  msg : String
  deriving Repr, DecidableEq

/-- The error taxonomy of `lib.rs` (`enum LastkajenError`): transport errors,
sink I/O errors, HTTP status errors, and service-reported error bodies. -/
inductive LastkajenError where
  | ReqwestError (e : ReqwestError)
  | IoError (e : IoError)
  | StatusError (code : Nat)
  | LastkajenError (text : String)
  deriving Repr, DecidableEq

/-- Bearer token record (`types::Token`). -/
structure Token where
  access_token : String
  expires_in : Nat
  is_external : Bool
  deriving Repr, DecidableEq

/-- `types::TargetFolder`. -/
structure TargetFolder where
  id : Nat
  name : String
  path : String
  deriving Repr, DecidableEq

/-- `types::DataPackageFolder`: a published package listing entry. -/
structure DataPackageFolder where
  id : Nat
  target_folder : TargetFolder
  source_folder : String
  name : String
  description : String
  published : Bool
  deriving Repr, DecidableEq

/-- `types::FileLink`. -/
structure FileLink where
  href : String
  rel : String
  method : String
  is_templated : Bool
  deriving Repr, DecidableEq

/-- `types::DataPackageFile` (without the `time` feature, `date_time` is a
plain string). -/
structure DataPackageFile where
  is_folder : Bool
  name : String
  size : String
  date_time : String
  links : List FileLink
  deriving Repr, DecidableEq

/-- `types::UserFile`. -/
structure UserFile where
  is_folder : Bool
  name : String
  size : String
  date_time : String
  deriving Repr, DecidableEq

/-- `types::DownloadCategory`: the download request, either a file of a
published package (`id` + `file`) or a user file (`file` only).  The Rust
borrows (`&usize`, `&String`) are modelled by values. -/
inductive DownloadCategory where
  | Published (id : Nat) (file : String)
  | User (file : String)
  deriving Repr, DecidableEq

/-- `types::DownloadToken`: a single-use download token, tagged by which kind
of request produced it. -/
inductive DownloadToken where
  | Published (t : String)
  | User (t : String)
  deriving Repr, DecidableEq

/-- An HTTP request as the client hands it to the transport: method, full URL,
and the optional bearer credential (`bearer_auth`). -/
structure Request where
  method : String
  url : String
  bearer : Option String
  deriving Repr, DecidableEq

/-- An HTTP response, as the record of the outcomes of its possible
consumptions (see the module docstring). -/
structure Response where
  status : Nat
  textResult : Except ReqwestError String
  jsonString : Except ReqwestError String
  jsonPackageFiles : Except ReqwestError (List DataPackageFile)
  chunks : List (Except ReqwestError (List Nat))

/-- `Lastkajen::check_status`: reject any response whose status is not
exactly 200, consuming its body as text for the error message; pass a 200
response through untouched. -/
def check_status (response : Response) : Except LastkajenError Response :=
  if response.status ≠ 200 then
    .error (match response.textResult with
      | .ok text => LastkajenError.LastkajenError text
      | .error err => LastkajenError.ReqwestError err)
  else
    .ok response

/-- The session (`struct Lastkajen`): holds the bearer token.  The transport
handle (`client`) is externalized as the `send` parameter of each operation;
the feature-gated expiry timestamp is informational only and never consulted,
so it is omitted. -/
structure Lastkajen where
  token : Token
  deriving Repr, DecidableEq

/-- The caller-supplied sink (`&mut dyn Write`): bytes written so far, plus an
optional scripted failure — `some (k, e)` makes the k-th `write_all` call from
now fail with `e`, writing nothing. -/
structure Sink where
  written : List Nat
  failAt : Option (Nat × IoError)

/-- `write_all` on the sink: appends the whole chunk, or fails as scripted. -/
def Sink.writeAll (s : Sink) (bytes : List Nat) : Except IoError Sink :=
  match s.failAt with
  | none => .ok { s with written := s.written ++ bytes }
  | some (0, e) => .error e
  | some (k + 1, e) => .ok { written := s.written ++ bytes, failAt := some (k, e) }

/-- The chunk-copy loop of `download_with_token`:
`while let Some(chunk) = res.chunk().await? { writable.write_all(&chunk)?; }`.
Each stream event is a chunk or a transport failure; the loop stops at the
first chunk-read failure (wrapped as `ReqwestError` by `?`) or sink-write
failure (wrapped as `IoError` by `?`), returning the sink state reached. -/
def copyChunks : List (Except ReqwestError (List Nat)) → Sink →
    Sink × Except LastkajenError Unit
  | [], s => (s, .ok ())
  | .error e :: _, s => (s, .error (.ReqwestError e))
  | .ok chunk :: rest, s =>
    match s.writeAll chunk with
    | .error e => (s, .error (.IoError e))
    | .ok s' => copyChunks rest s'

/-- `Lastkajen::get_download_token`: build the token URL from the request
variant, GET it with bearer auth, status-check, then JSON-decode the body as a
bare string and wrap it in the `DownloadToken` variant matching the request
variant.  Returns the requests issued alongside the result. -/
def get_download_token (lk : Lastkajen)
    (send : Request → Except ReqwestError Response)
    (category : DownloadCategory) :
    List Request × Except LastkajenError DownloadToken :=
  let url : String := match category with
    | .User file =>
      "https://lastkajen.trafikverket.se/api/file/GetUserFileDownloadToken?fileName="
        ++ file
    | .Published id file =>
      "https://lastkajen.trafikverket.se/api/file/GetDataPackageDownloadToken?id="
        ++ toString id ++ "&fileName=" ++ file
  let req : Request := { method := "GET", url := url,
                         bearer := some lk.token.access_token }
  ([req],
    match send req with
    | .error e => .error (.ReqwestError e)
    | .ok res =>
      match check_status res with
      | .error e => .error e
      | .ok res =>
        match category with
        | .User _ =>
          match res.jsonString with
          | .error e => .error (.ReqwestError e)
          | .ok s => .ok (.User s)
        | .Published _ _ =>
          match res.jsonString with
          | .error e => .error (.ReqwestError e)
          | .ok s => .ok (.Published s))

/-- `Lastkajen::download_with_token`: build the streaming URL from the token
variant (the two variants use different endpoints), GET it with no bearer
auth, status-check, then copy the body to the sink chunk by chunk.  Returns
the requests issued, the final sink state, and the outcome. -/
def download_with_token (lk : Lastkajen)
    (send : Request → Except ReqwestError Response)
    (download_token : DownloadToken) (writable : Sink) :
    List Request × Sink × Except LastkajenError Unit :=
  let url : String := match download_token with
    | .User dltoken =>
      "https://lastkajen.trafikverket.se/api/file/GetFileStream?token=" ++ dltoken
    | .Published dltoken =>
      "https://lastkajen.trafikverket.se/api/file/GetDataPackageFile?token="
        ++ dltoken
  let req : Request := { method := "GET", url := url, bearer := none }
  ([req],
    match send req with
    | .error e => (writable, .error (.ReqwestError e))
    | .ok res =>
      match check_status res with
      | .error e => (writable, .error e)
      | .ok res => copyChunks res.chunks writable)

/-- `Lastkajen::download_file`: obtain a download token for the request, then
expend it with `download_with_token`; the first `?` propagates any
token-acquisition error before the sink is ever used. -/
def download_file (lk : Lastkajen)
    (send : Request → Except ReqwestError Response)
    (category : DownloadCategory) (writable : Sink) :
    List Request × Sink × Except LastkajenError Unit :=
  let r := get_download_token lk send category
  match r.2 with
  | .error e => (r.1, writable, .error e)
  | .ok download_token =>
    let d := download_with_token lk send download_token writable
    (r.1 ++ d.1, d.2)

/-- `Lastkajen::get_package_files_from_id`: GET the per-package files endpoint
(`id` interpolated into the URL path) with bearer auth, status-check, decode
as a list of `DataPackageFile`. -/
def get_package_files_from_id (lk : Lastkajen)
    (send : Request → Except ReqwestError Response) (id : Nat) :
    List Request × Except LastkajenError (List DataPackageFile) :=
  let req : Request :=
    { method := "GET",
      url := "https://lastkajen.trafikverket.se/api/DataPackage/GetDataPackageFiles/"
        ++ toString id,
      bearer := some lk.token.access_token }
  ([req],
    match send req with
    | .error e => .error (.ReqwestError e)
    | .ok res =>
      match check_status res with
      | .error e => .error e
      | .ok res =>
        match res.jsonPackageFiles with
        | .error e => .error (.ReqwestError e)
        | .ok v => .ok v)

/-- `Lastkajen::get_package_files`: forwards to `get_package_files_from_id`
on the package's `id`. -/
def get_package_files (lk : Lastkajen)
    (send : Request → Except ReqwestError Response)
    (package : DataPackageFolder) :
    List Request × Except LastkajenError (List DataPackageFile) :=
  get_package_files_from_id lk send package.id

/-- Concatenation of a list of byte chunks, in order. -/
def concatBytes : List (List Nat) → List Nat
  | [] => []
  | c :: cs => c ++ concatBytes cs

/-- `true` iff the token variant matches the request variant it should have
been produced from. -/
def tokenMatches : DownloadCategory → DownloadToken → Bool
  | .Published _ _, .Published _ => true
  | .User _, .User _ => true
  | _, _ => false

-- Concrete fixtures used by witnesses and counterexamples.

/-- A concrete session fixture. -/
def lkTest : Lastkajen :=
  { token := { access_token := "at", expires_in := 3600, is_external := false } }

/-- A 404 response whose body reads as the text `"oops"`. -/
def r404 : Response :=
  { status := 404, textResult := .ok "oops",
    jsonString := .error { msg := "not consumed" },
    jsonPackageFiles := .error { msg := "not consumed" }, chunks := [] }

/-- A 503 response whose body cannot be read at all. -/
def r503 : Response :=
  { status := 503, textResult := .error { msg := "conn reset" },
    jsonString := .error { msg := "conn reset" },
    jsonPackageFiles := .error { msg := "conn reset" }, chunks := [] }

/-- A plain 200 response. -/
def r200ok : Response :=
  { status := 200, textResult := .ok "", jsonString := .ok "tok123",
    jsonPackageFiles := .ok [], chunks := [] }

/-- A 200 response whose body JSON-decodes as the bare string `"tok123"`. -/
def stubTok123 : Response :=
  { status := 200, textResult := .ok "\"tok123\"", jsonString := .ok "tok123",
    jsonPackageFiles := .error { msg := "not a package listing" }, chunks := [] }

/-- Claim C1: for every response whose status is not exactly 200,
`check_status` returns an error without attempting JSON decoding — a
`LastkajenError` (service error) carrying the body text when the body reads
as text, else a `ReqwestError` (transport error) wrapping the read failure;
for a status of exactly 200 it returns the response unchanged. -/
theorem check_status_spec (r : Response) :
    (r.status ≠ 200 → ∀ t, r.textResult = .ok t →
      check_status r = .error (.LastkajenError t)) ∧
    (r.status ≠ 200 → ∀ e, r.textResult = .error e →
      check_status r = .error (.ReqwestError e)) ∧
    (r.status = 200 → check_status r = .ok r) := by
  refine ⟨fun h1 t h2 => ?_, fun h1 e h2 => ?_, fun h => ?_⟩ <;>
    simp [check_status, *]

/-- Witness for C1 at concrete responses. -/
theorem check_status_spec_witness :
    check_status r404 = .error (.LastkajenError "oops") ∧
    check_status r503 = .error (.ReqwestError { msg := "conn reset" }) ∧
    check_status r200ok = .ok r200ok :=
  ⟨(check_status_spec r404).1 (by decide) "oops" rfl,
   (check_status_spec r503).2.1 (by decide) { msg := "conn reset" } rfl,
   (check_status_spec r200ok).2.2 rfl⟩

/-- Counterexample to C5 as stated: a 503 response whose body is unreadable is
NOT classified as `StatusError 503`; it is a `ReqwestError`. -/
theorem check_status_unreadable_not_StatusError :
    check_status r503 ≠ .error (.StatusError 503) ∧
    check_status r503 = .error (.ReqwestError { msg := "conn reset" }) := by
  constructor
  · simp [check_status, r503]
  · rfl

/-- Claim C5 (amended): a non-200 response whose body cannot be read as text
is classified as the transport error kind (`ReqwestError`) wrapping the
body-read failure; `check_status` never produces `StatusError`. -/
theorem check_status_unreadable_is_transport (r : Response) (e : ReqwestError)
    (h1 : r.status ≠ 200) (h2 : r.textResult = .error e) :
    check_status r = .error (.ReqwestError e) ∧
    ∀ code, check_status r ≠ .error (.StatusError code) := by
  constructor
  · simp [check_status, h1, h2]
  · intro code
    simp [check_status, h1, h2]

/-- Witness for C5 (amended) at a concrete response. -/
theorem check_status_unreadable_is_transport_witness :
    check_status r503 = .error (.ReqwestError { msg := "conn reset" }) ∧
    check_status r503 ≠ .error (.StatusError 503) :=
  ⟨(check_status_unreadable_is_transport r503 { msg := "conn reset" }
      (by decide) rfl).1,
   (check_status_unreadable_is_transport r503 { msg := "conn reset" }
      (by decide) rfl).2 503⟩

/-- Claim C9: `get_package_files` is pure forwarding to
`get_package_files_from_id` on the package's `id`. -/
theorem get_package_files_forwards (lk : Lastkajen)
    (send : Request → Except ReqwestError Response)
    (package : DataPackageFolder) :
    get_package_files lk send package =
      get_package_files_from_id lk send package.id := rfl

/-- Claim C6: against a stub whose 200 response decodes as the bare string
`"tok123"`, `get_download_token` on `User{file: "a.zip"}` returns
`DownloadToken.User "tok123"`. -/
theorem get_download_token_bare_string :
    (get_download_token lkTest (fun _ => .ok stubTok123)
        (.User "a.zip")).2 = .ok (.User "tok123") := rfl

/-- Claim C2: whenever `get_download_token` succeeds, the returned token's
variant matches the request's variant — a `Published` request only ever
yields a `Published` token, and a `User` request only a `User` token. -/
theorem get_download_token_variant (lk : Lastkajen)
    (send : Request → Except ReqwestError Response)
    (category : DownloadCategory) :
    ∀ t, (get_download_token lk send category).2 = .ok t →
      tokenMatches category t = true := by
  intro t h
  cases category <;>
    · simp only [get_download_token] at h
      repeat' split at h
      all_goals first
        | (cases h; simp [tokenMatches])
        | simp_all [tokenMatches]

/-- Witness for C2: each variant exercised against a concrete stub. -/
theorem get_download_token_variant_witness :
    tokenMatches (.Published 7 "f.zip") (.Published "tok123") = true ∧
    tokenMatches (.User "a.zip") (.User "tok123") = true :=
  ⟨get_download_token_variant lkTest (fun _ => .ok stubTok123)
      (.Published 7 "f.zip") (.Published "tok123") rfl,
   get_download_token_variant lkTest (fun _ => .ok stubTok123)
      (.User "a.zip") (.User "tok123") rfl⟩

/-- Claim C7: `get_download_token` issues exactly one GET — for a `Published`
request to `/api/file/GetDataPackageDownloadToken` with `id` and `fileName`
query parameters, for a `User` request to
`/api/file/GetUserFileDownloadToken` with only `fileName` — and both carry
bearer auth with the session's access token. -/
theorem get_download_token_requests (lk : Lastkajen)
    (send : Request → Except ReqwestError Response)
    (id : Nat) (file : String) :
    (get_download_token lk send (.Published id file)).1 =
      [{ method := "GET",
         url := "https://lastkajen.trafikverket.se/api/file/GetDataPackageDownloadToken?id="
           ++ toString id ++ "&fileName=" ++ file,
         bearer := some lk.token.access_token }] ∧
    (get_download_token lk send (.User file)).1 =
      [{ method := "GET",
         url := "https://lastkajen.trafikverket.se/api/file/GetUserFileDownloadToken?fileName="
           ++ file,
         bearer := some lk.token.access_token }] :=
  ⟨rfl, rfl⟩

/-- Claim C3: `download_with_token` issues exactly one GET, to the
user-stream endpoint `/api/file/GetFileStream` for a `User` token and to the
package-stream endpoint `/api/file/GetDataPackageFile` for a `Published`
token, and that request carries no bearer credential. -/
theorem download_with_token_requests (lk : Lastkajen)
    (send : Request → Except ReqwestError Response)
    (t : String) (s : Sink) :
    (download_with_token lk send (.User t) s).1 =
      [{ method := "GET",
         url := "https://lastkajen.trafikverket.se/api/file/GetFileStream?token=" ++ t,
         bearer := none }] ∧
    (download_with_token lk send (.Published t) s).1 =
      [{ method := "GET",
         url := "https://lastkajen.trafikverket.se/api/file/GetDataPackageFile?token=" ++ t,
         bearer := none }] :=
  ⟨rfl, rfl⟩

/-- Helper: the chunk-copy loop on an all-successful stream with a
never-failing sink appends exactly the concatenation of the chunks. -/
theorem copyChunks_all_ok (bs : List (List Nat)) (w : List Nat) :
    copyChunks (bs.map Except.ok) { written := w, failAt := none } =
      ({ written := w ++ concatBytes bs, failAt := none }, Except.ok ()) := by
  induction bs generalizing w with
  | nil => simp [copyChunks, concatBytes]
  | cons b bs ih =>
    simp [copyChunks, Sink.writeAll, concatBytes, ih, List.append_assoc]

/-- Claim C4: a successful `download_with_token` against a 200 response
delivered as any number of chunks writes exactly the concatenation of the
chunks, in arrival order, to the sink, and succeeds. -/
theorem download_with_token_round_trip (lk : Lastkajen)
    (send : Request → Except ReqwestError Response)
    (tok : DownloadToken) (res : Response) (w : List Nat)
    (bs : List (List Nat))
    (hsend : ∀ q, send q = .ok res) (hstatus : res.status = 200)
    (hchunks : res.chunks = bs.map Except.ok) :
    (download_with_token lk send tok { written := w, failAt := none }).2 =
      ({ written := w ++ concatBytes bs, failAt := none }, Except.ok ()) := by
  cases tok <;>
    simp [download_with_token, hsend, check_status, hstatus, hchunks,
      copyChunks_all_ok]

/-- A 200 response streaming three chunks. -/
def res3chunks : Response :=
  { status := 200, textResult := .ok "", jsonString := .error { msg := "binary body" },
    jsonPackageFiles := .error { msg := "binary body" },
    chunks := [.ok [1, 2], .ok [3], .ok [4, 5, 6]] }

/-- Witness for C4: three chunks arrive and the sink holds their
concatenation. -/
theorem download_with_token_round_trip_witness :
    (download_with_token lkTest (fun _ => .ok res3chunks) (.Published "tok123")
        { written := [], failAt := none }).2 =
      ({ written := [1, 2, 3, 4, 5, 6], failAt := none }, Except.ok ()) := by
  have h := download_with_token_round_trip lkTest (fun _ => .ok res3chunks)
    (.Published "tok123") res3chunks [] [[1, 2], [3], [4, 5, 6]]
    (fun _ => rfl) rfl rfl
  simpa [concatBytes] using h

/-- Helper: a chunk-read failure after an all-successful prefix stops the
loop at once — the result does not depend on the rest of the stream, only
the prefix bytes are in the sink, and the error is the transport kind. -/
theorem copyChunks_read_fail (bs : List (List Nat)) (e : ReqwestError)
    (rest : List (Except ReqwestError (List Nat))) (w : List Nat) :
    copyChunks (bs.map Except.ok ++ Except.error e :: rest)
        { written := w, failAt := none } =
      ({ written := w ++ concatBytes bs, failAt := none },
        Except.error (.ReqwestError e)) := by
  induction bs generalizing w with
  | nil => simp [copyChunks, concatBytes]
  | cons b bs ih =>
    simp [copyChunks, Sink.writeAll, concatBytes, ih, List.append_assoc]

/-- Helper: a sink whose k-th write fails (k within the successful prefix)
stops the loop at once with the I/O error kind, having written only the
first k chunks; the rest of the stream is never consumed. -/
theorem copyChunks_write_fail (bs : List (List Nat)) (k : Nat) (e : IoError)
    (rest : List (Except ReqwestError (List Nat))) (w : List Nat) :
    k < bs.length →
    copyChunks (bs.map Except.ok ++ rest) { written := w, failAt := some (k, e) } =
      ({ written := w ++ concatBytes (bs.take k), failAt := some (0, e) },
        Except.error (.IoError e)) := by
  induction bs generalizing w k with
  | nil => intro hk; exact absurd hk (by simp)
  | cons b bs ih =>
    intro hk
    cases k with
    | zero => simp [copyChunks, Sink.writeAll, concatBytes]
    | succ k =>
      have hk' : k < bs.length := Nat.lt_of_succ_lt_succ hk
      simp [copyChunks, Sink.writeAll, concatBytes, ih k (w ++ b) hk',
        List.append_assoc]

/-- Claim C8: during the streaming copy of `download_with_token`, the first
chunk-read failure surfaces at once as a transport error and the first
sink-write failure as an `IoError`; in both cases nothing after the failure
point is read or written (the result does not depend on the remaining stream
events, and the sink holds only the bytes from before the failure). -/
theorem download_with_token_abort (lk : Lastkajen)
    (send : Request → Except ReqwestError Response)
    (tok : DownloadToken) (res : Response) (w : List Nat)
    (bs : List (List Nat)) (rest : List (Except ReqwestError (List Nat)))
    (e : ReqwestError)
    (hsend : ∀ q, send q = .ok res) (hstatus : res.status = 200) :
    (res.chunks = bs.map Except.ok ++ Except.error e :: rest →
      (download_with_token lk send tok { written := w, failAt := none }).2 =
        ({ written := w ++ concatBytes bs, failAt := none },
          Except.error (.ReqwestError e))) ∧
    (∀ k ioe, res.chunks = bs.map Except.ok ++ rest → k < bs.length →
      (download_with_token lk send tok { written := w, failAt := some (k, ioe) }).2 =
        ({ written := w ++ concatBytes (bs.take k), failAt := some (0, ioe) },
          Except.error (.IoError ioe))) := by
  constructor
  · intro hchunks
    cases tok <;>
      simp [download_with_token, hsend, check_status, hstatus, hchunks,
        copyChunks_read_fail]
  · intro k ioe hchunks hk
    cases tok <;>
      simp [download_with_token, hsend, check_status, hstatus, hchunks,
        copyChunks_write_fail bs k ioe rest w hk]

/-- A 200 response whose stream yields one chunk and then a read failure. -/
def resReadFail : Response :=
  { status := 200, textResult := .ok "",
    jsonString := .error { msg := "binary body" },
    jsonPackageFiles := .error { msg := "binary body" },
    chunks := [.ok [1, 2], .error { msg := "stream cut" }, .ok [9, 9]] }

/-- Witness for C8: a mid-stream read failure and a scripted write failure,
each aborting with the matching error kind and only the prefix bytes
written. -/
theorem download_with_token_abort_witness :
    (download_with_token lkTest (fun _ => .ok resReadFail) (.User "tok123")
        { written := [], failAt := none }).2 =
      ({ written := [1, 2], failAt := none },
        Except.error (.ReqwestError { msg := "stream cut" })) ∧
    (download_with_token lkTest (fun _ => .ok res3chunks) (.User "tok123")
        { written := [], failAt := some (1, { msg := "disk full" }) }).2 =
      ({ written := [1, 2], failAt := some (0, { msg := "disk full" }) },
        Except.error (.IoError { msg := "disk full" })) := by
  constructor
  · have h := (download_with_token_abort lkTest (fun _ => .ok resReadFail)
      (.User "tok123") resReadFail [] [[1, 2]] [Except.ok [9, 9]]
      { msg := "stream cut" } (fun _ => rfl) rfl).1 rfl
    simpa [concatBytes] using h
  · have h := (download_with_token_abort lkTest (fun _ => .ok res3chunks)
      (.User "tok123") res3chunks [] [[1, 2], [3], [4, 5, 6]] []
      { msg := "unused" } (fun _ => rfl) rfl).2 1 { msg := "disk full" }
      (by simp [res3chunks]) (by simp)
    simpa [concatBytes] using h

/-- Claim C10: if token acquisition fails, `download_file` returns that very
error and the sink is returned untouched — no byte reaches the sink before a
token has been obtained. -/
theorem download_file_token_fail (lk : Lastkajen)
    (send : Request → Except ReqwestError Response)
    (category : DownloadCategory) (s : Sink) (e : LastkajenError)
    (h : (get_download_token lk send category).2 = .error e) :
    (download_file lk send category s).2 = (s, .error e) := by
  simp [download_file, h]

/-- Witness for C10: a refused connection during token acquisition leaves the
sink exactly as it was. -/
theorem download_file_token_fail_witness :
    (download_file lkTest (fun _ => .error { msg := "connection refused" })
        (.User "a.zip") { written := [7], failAt := none }).2 =
      ({ written := [7], failAt := none },
        .error (.ReqwestError { msg := "connection refused" })) :=
  download_file_token_fail lkTest (fun _ => .error { msg := "connection refused" })
    (.User "a.zip") { written := [7], failAt := none }
    (.ReqwestError { msg := "connection refused" }) rfl
